import Mathlib

/-!
Verification development for the outlier-excluder claims app.

The source program loads a policy book and a claims-transaction table,
aggregates them into an ACPH ("actual claims per home") table, filters it
per product, applies a user-supplied positional exclusion mask, reduces the
surviving rows to an average pattern per development year, and fits a
three-parameter decay curve to that pattern.  Exclusions can be saved to a
per-product assumption store.

The embedding below models the tabular pipeline over lists of records.
Monetary amounts and home counts are modelled as rationals (exact
arithmetic); `ReportDate` is modelled by the only field the program reads
from it, its calendar year.  The nonlinear least-squares solver is an
external numeric routine, so the fit step is modelled as an abstract
function parameter: theorems about "the fitter is never invoked" are
stated for every possible fit function.
-/

/-- A row of the policy book (`Policy_Book.parquet`). -/
structure Policy where
  policyID : Nat
  cohortYear : Int
  productType : String
  numHomes : Rat
deriving DecidableEq, Repr

/-- A row of the claims transactions (`Claims_Transaction.parquet`);
`reportYear` is `ReportDate.dt.year()`, the only part of the date the
program uses. -/
structure ClaimTx where
  policyID : Nat
  reportYear : Int
  paymentAmount : Rat
deriving DecidableEq, Repr

/-- A row of the aggregated ACPH table produced by `load_data`. -/
structure AcphRow where
  cohortYear : Int
  devYear : Int
  productType : String
  totalClaims : Rat
  totalHomes : Rat
  acph : Rat
deriving DecidableEq, Repr

/-- A grouping key of the claims-development table `df_dev`. -/
structure DevKey where
  cohortYear : Int
  devYear : Int
  productType : String
deriving DecidableEq, Repr

/-- The cohort years present in the exposure table `df_exposure`
(`df_policies.group_by("CohortYear")`): each distinct cohort year of the
policy book, once. -/
def exposureKeys (ps : List Policy) : List Int :=
  (ps.map (fun p => p.cohortYear)).dedup

/-- `TotalHomes` of a cohort: `pl.col("NumHomes").sum()` over the policies
of that cohort. -/
def totalHomesOf (ps : List Policy) (c : Int) : Rat :=
  ((ps.filter (fun p => decide (p.cohortYear = c))).map (fun p => p.numHomes)).sum

/-- The inner join `df_claims.join(df_policies.select(...), on="PolicyID")`:
one row per (claim, policy) pair agreeing on `PolicyID`. -/
def joinedRows (ps : List Policy) (cs : List ClaimTx) : List (ClaimTx × Policy) :=
  cs.flatMap (fun c => (ps.filter (fun p => decide (p.policyID = c.policyID))).map (fun p => (c, p)))

/-- The grouping key of one joined row:
`DevYear = ReportDate.dt.year() - CohortYear`. -/
def devKeyOf (cp : ClaimTx × Policy) : DevKey :=
  ⟨cp.2.cohortYear, cp.1.reportYear - cp.2.cohortYear, cp.2.productType⟩

/-- The distinct `(CohortYear, DevYear, ProductType)` keys of `df_dev`. -/
def devKeys (ps : List Policy) (cs : List ClaimTx) : List DevKey :=
  ((joinedRows ps cs).map devKeyOf).dedup

/-- `TotalClaims` of one dev bucket: `pl.col("PaymentAmount").sum()` over
the joined rows with that key. -/
def totalClaimsOf (ps : List Policy) (cs : List ClaimTx) (k : DevKey) : Rat :=
  (((joinedRows ps cs).filter (fun cp => decide (devKeyOf cp = k))).map
    (fun cp => cp.1.paymentAmount)).sum

/-- The ACPH row built for one dev bucket by the join
`df_dev.join(df_exposure, on="CohortYear")` followed by
`TotalClaims / TotalHomes` (the exposure table has one row per cohort year,
so the join attaches `totalHomesOf` of the bucket's cohort). -/
def acphRowOf (ps : List Policy) (cs : List ClaimTx) (k : DevKey) : AcphRow :=
  { cohortYear := k.cohortYear
    devYear := k.devYear
    productType := k.productType
    totalClaims := totalClaimsOf ps cs k
    totalHomes := totalHomesOf ps k.cohortYear
    acph := totalClaimsOf ps cs k / totalHomesOf ps k.cohortYear }

/-- The sort order `.sort(["ProductType", "CohortYear", "DevYear"])`. -/
def rowLE (a b : AcphRow) : Prop :=
  a.productType < b.productType ∨
    (a.productType = b.productType ∧
      (a.cohortYear < b.cohortYear ∨
        (a.cohortYear = b.cohortYear ∧ a.devYear ≤ b.devYear)))

instance : DecidableRel rowLE := fun a b => by
  unfold rowLE
  infer_instance

instance : IsTrans AcphRow rowLE := by
  constructor
  intro a b c hab hbc
  rcases hab with h1 | ⟨e1, h1⟩ <;> rcases hbc with h2 | ⟨e2, h2⟩
  · exact Or.inl (lt_trans h1 h2)
  · exact Or.inl (lt_of_lt_of_le h1 (le_of_eq e2))
  · exact Or.inl (lt_of_le_of_lt (le_of_eq e1) h2)
  · refine Or.inr ⟨e1.trans e2, ?_⟩
    rcases h1 with h1 | ⟨f1, h1⟩ <;> rcases h2 with h2 | ⟨f2, h2⟩
    · exact Or.inl (lt_trans h1 h2)
    · exact Or.inl (lt_of_lt_of_le h1 (le_of_eq f2))
    · exact Or.inl (lt_of_le_of_lt (le_of_eq f1) h2)
    · exact Or.inr ⟨f1.trans f2, le_trans h1 h2⟩

instance : IsTotal AcphRow rowLE := by
  constructor
  intro a b
  rcases lt_trichotomy a.productType b.productType with h | h | h
  · exact Or.inl (Or.inl h)
  · rcases lt_trichotomy a.cohortYear b.cohortYear with h' | h' | h'
    · exact Or.inl (Or.inr ⟨h, Or.inl h'⟩)
    · rcases le_total a.devYear b.devYear with h'' | h''
      · exact Or.inl (Or.inr ⟨h, Or.inr ⟨h', h''⟩⟩)
      · exact Or.inr (Or.inr ⟨h.symm, Or.inr ⟨h'.symm, h''⟩⟩)
    · exact Or.inr (Or.inr ⟨h.symm, Or.inl h'⟩)
  · exact Or.inr (Or.inl h)

/-- The full aggregation pipeline of `load_data` once both parquet files
were read: exposure grouping, claims-development grouping after the
`PolicyID` join, the exposure join on `CohortYear`, the ACPH quotient and
the final sort. -/
def acphTable (ps : List Policy) (cs : List ClaimTx) : List AcphRow :=
  List.insertionSort rowLE
    (((devKeys ps cs).filter (fun k => decide (k.cohortYear ∈ exposureKeys ps))).map
      (acphRowOf ps cs))

/-- `load_data` including its data-availability fallback: the probe looks
for `Policy_Book.parquet`; when no candidate directory holds it the
function returns an empty table.  When the policy book is found,
`read_parquet` of the claims file is unguarded, so an absent claims file
raises (`.error`); with both record sets present the table is aggregated. -/
def load_data (policyBook : Option (List Policy)) (claimsTx : Option (List ClaimTx)) :
    Except String (List AcphRow) :=
  match policyBook with
  | none => .ok []
  | some ps =>
    match claimsTx with
    | none => .error "FileNotFoundError"
    | some cs => .ok (acphTable ps cs)

/-- The reactive `filtered_data`: empty guard, then
`df_acph.filter(pl.col("ProductType") == selected_product)`. -/
def filtered_data (table : List AcphRow) (product : String) : List AcphRow :=
  if table = [] then []
  else table.filter (fun r => decide (r.productType = product))

/-- The columns shown by `exclusion_grid`
(`df.select(["CohortYear", "DevYear", "ACPH"])`), empty grid when the
filtered table is empty. -/
def exclusion_grid (df : List AcphRow) : List (Int × Int × Rat) :=
  if df = [] then []
  else df.map (fun r => (r.cohortYear, r.devYear, r.acph))

/-- Positional fancy assignment `xs[idxs] = v` as numpy (and
`DataFrame.iloc` on a list of positions) performs it: every index must be
in range, otherwise the whole operation raises `IndexError` (`none`). -/
def setAll {α : Type} (xs : List α) (idxs : List Nat) (v : α) : Option (List α) :=
  idxs.foldl
    (fun acc i => acc.bind (fun m => if i < m.length then some (m.set i v) else none))
    (some xs)

/-- `df.filter(pl.Series(mask))`: keep the rows whose mask entry is true. -/
def applyMask {α : Type} (df : List α) (mask : List Bool) : List α :=
  (df.zip mask).filterMap (fun rb => if rb.2 then some rb.1 else none)

/-- The Selector of `fitted_curve`: start from an all-true inclusion mask
(`np.ones(len(df), dtype=bool)`), set the selected positions to false when
the selection is non-empty, and filter.  `none` models the `IndexError`
numpy raises when a selected position is out of range. -/
def cleanSubset (df : List AcphRow) (sel : List Nat) : Option (List AcphRow) :=
  (setAll (List.replicate df.length true) (if sel = [] then [] else sel) false).map
    (applyMask df)

/-- The distinct development years of a row set, as grouped by
`group_by("DevYear")`. -/
def devYearsOf (df : List AcphRow) : List Int :=
  (df.map (fun r => r.devYear)).dedup

/-- `pl.col("ACPH").mean()` over the rows of one development year. -/
def meanACPH (df : List AcphRow) (d : Int) : Rat :=
  let vs := (df.filter (fun r => decide (r.devYear = d))).map (fun r => r.acph)
  vs.sum / vs.length

/-- The order `.sort("DevYear")` on pattern points. -/
def pointLE (a b : Int × Rat) : Prop :=
  a.1 ≤ b.1

instance : DecidableRel pointLE := fun a b => by
  unfold pointLE
  infer_instance

instance : IsTrans (Int × Rat) pointLE :=
  ⟨fun _ _ _ => le_trans⟩

instance : IsTotal (Int × Rat) pointLE :=
  ⟨fun a b => le_total a.1 b.1⟩

/-- The Pattern Reducer of `fitted_curve`: group the clean subset by
`DevYear`, take the mean ACPH of each group, sort by `DevYear`, keep only
the development years at most 10. -/
def reducedPattern (df : List AcphRow) : List (Int × Rat) :=
  (List.insertionSort pointLE
      ((devYearsOf df).map (fun d => (d, meanACPH df d)))).filter
    (fun p => decide (p.1 ≤ 10))

/-- The reactive `fitted_curve`, parametric in the numeric solver `fit`
(`scipy.optimize.curve_fit` wrapped in `try/except`, so `fit` already
returns `none` on any solver failure): empty-table guard, mask
construction (whose `IndexError` is NOT caught and escapes as `.error`),
pattern reduction, the `height < 3` guard, and only then the solver call. -/
def fitted_curve {α : Type} (fit : List (Int × Rat) → Option α)
    (df : List AcphRow) (sel : List Nat) : Except String (Option α) :=
  if df = [] then .ok none
  else
    match cleanSubset df sel with
    | none => .error "IndexError"
    | some clean =>
      if (reducedPattern clean).length < 3 then .ok none
      else .ok (fit (reducedPattern clean))

/-- The Included/Excluded labelling of `main_plot`
(`df_pd["Status"] = "Included"` then
`df_pd.iloc[list(selected_indices), ...] = "Excluded"` when the selection
is non-empty); `none` models the pandas `IndexError` on an out-of-range
position. -/
def statusLabels (n : Nat) (sel : List Nat) : Option (List String) :=
  setAll (List.replicate n "Included") (if sel = [] then [] else sel) "Excluded"

/-- What `main_plot` renders. -/
inductive PlotDesc (α : Type) where
  | noData : PlotDesc α
  | plot : List AcphRow → List String → Option α → PlotDesc α
deriving DecidableEq, Repr

/-- The reactive `main_plot`: the "No Data Found" figure on an empty table,
otherwise the labelled scatter plus the curve overlay when the fit
succeeded.  An `IndexError` from the labelling or from the `fitted_curve`
dependency escapes as `.error`. -/
def main_plot {α : Type} (fit : List (Int × Rat) → Option α)
    (df : List AcphRow) (sel : List Nat) : Except String (PlotDesc α) :=
  if df = [] then .ok .noData
  else
    match statusLabels df.length sel with
    | none => .error "IndexError"
    | some labels =>
      match fitted_curve fit df sel with
      | .error e => .error e
      | .ok popt => .ok (.plot df labels popt)

/-- The membership mask `np.isin(np.arange(len(df)), list(selected_indices))`
used by `save`: position `i` is marked excluded exactly when `i` is in the
selection, and positions outside `0..len(df)-1` simply never arise. -/
def isinMask (n : Nat) (sel : List Nat) : List Bool :=
  (List.range n).map (fun i => decide (i ∈ sel))

/-- The `excluded_points` list built by `save`: empty when the selection is
empty, otherwise the `(CohortYear, DevYear)` pairs of the rows of the
current filtered view at the selected positions. -/
def excluded_points (df : List AcphRow) (sel : List Nat) : List (Int × Int) :=
  if sel = [] then []
  else (applyMask df (isinMask df.length sel)).map (fun r => (r.cohortYear, r.devYear))

/-- The persisted assumption store: the `"products"` mapping of
`assumptions.json`, each product's `"excluded_points"` entry. -/
def AssumptionStore : Type := String → Option (List (Int × Int))

/-- The `save` action: read (or initialise) the store, replace the current
product's `excluded_points` entry with the pairs of the currently excluded
rows, leave every other product's entry as it was, and notify with the
count of excluded points saved. -/
def save_op (store : AssumptionStore) (prod : String)
    (df : List AcphRow) (sel : List Nat) : AssumptionStore × Nat :=
  (fun q => if q = prod then some (excluded_points df sel) else store q,
    (excluded_points df sel).length)

/-- The model curve `actuarial_curve(t, A, B, C)`:
`A * np.maximum(t, 0.1) ** B * np.exp(-C * np.maximum(t, 0.1))`, read over
the reals (the floored base is positive, so the real power `rpow` is the
exact counterpart of numpy's float power). -/
noncomputable def actuarial_curve (t A B C : ℝ) : ℝ :=
  A * Real.rpow (max t 0.1) B * Real.exp (-C * max t 0.1)

/-! ## Helper lemmas -/

theorem applyMask_replicate_true {α : Type} (l : List α) :
    applyMask l (List.replicate l.length true) = l := by
  induction l with
  | nil => rfl
  | cons a l ih =>
    rw [List.length_cons, List.replicate_succ]
    exact congrArg (a :: ·) ih

theorem cleanSubset_nil_sel (df : List AcphRow) : cleanSubset df [] = some df := by
  simp [cleanSubset, setAll, applyMask_replicate_true]

/-! ## Claim theorems -/

/-- Claim C4: when the source datasets are unavailable (the probe for the
policy book fails) the Aggregator returns an empty table rather than
raising, and every downstream stage (product filter, grid, plot, fit)
treats the empty table as a valid state: no rows are produced and no fit
is attempted (for any solver). -/
theorem c4_missing_data_safe :
    (∀ claimsTx : Option (List ClaimTx), load_data none claimsTx = .ok []) ∧
    (∀ prod : String, filtered_data [] prod = []) ∧
    exclusion_grid [] = [] ∧
    (∀ (α : Type) (fit : List (Int × Rat) → Option α) (sel : List Nat),
      fitted_curve fit [] sel = .ok none) ∧
    (∀ (α : Type) (fit : List (Int × Rat) → Option α) (sel : List Nat),
      main_plot fit [] sel = .ok .noData) :=
  ⟨fun _ => rfl, fun _ => rfl, rfl, fun _ _ _ => rfl, fun _ _ _ => rfl⟩

/-- Claim C9: an empty exclusion set leaves the clean subset equal to the
full product-filtered table, so the reduced pattern is exactly the pattern
obtained with no exclusions ever applied. -/
theorem c9_empty_exclusion_identity (df : List AcphRow) :
    cleanSubset df [] = some df ∧
    (cleanSubset df []).map reducedPattern = some (reducedPattern df) := by
  refine ⟨cleanSubset_nil_sel df, ?_⟩
  rw [cleanSubset_nil_sel df]
  rfl

/-- Claim C6: the save operation writes back a store whose entry for the
current product is exactly the excluded `(CohortYear, DevYear)` pairs,
leaves every other product's entry unchanged, and reports the count of
excluded points saved, an empty selection being the valid count-0 case. -/
theorem c6_save_per_product (store : AssumptionStore) (prod : String)
    (df : List AcphRow) (sel : List Nat) :
    (save_op store prod df sel).1 prod = some (excluded_points df sel) ∧
    (∀ q : String, q ≠ prod → (save_op store prod df sel).1 q = store q) ∧
    (save_op store prod df sel).2 = (excluded_points df sel).length ∧
    excluded_points df [] = [] ∧
    (save_op store prod df []).2 = 0 := by
  refine ⟨by simp [save_op], fun q hq => by simp [save_op, hq], rfl, rfl, rfl⟩

/-- Claim C8: for every t at most 0.1 (including t near 0 and negative t)
the curve equals `A * 0.1^B * exp(-0.1*C)`, and the floored base is
positive, so the real power is defined for every real exponent B (no
domain error). -/
theorem c8_curve_floor (t A B C : ℝ) (h : t ≤ 0.1) :
    0 < max t 0.1 ∧
    actuarial_curve t A B C = A * Real.rpow 0.1 B * Real.exp (-0.1 * C) := by
  have hm : max t 0.1 = 0.1 := max_eq_right h
  constructor
  · rw [hm]
    norm_num
  · unfold actuarial_curve
    rw [hm]
    have harg : -C * (0.1 : ℝ) = -0.1 * C := by ring
    rw [harg]

/-- Witness for C8 at the concrete point t = 0, A = 1, B = 2, C = 3. -/
theorem c8_curve_floor_witness :
    (0 : ℝ) ≤ 0.1 ∧
    (0 < max (0 : ℝ) 0.1 ∧
      actuarial_curve 0 1 2 3 = 1 * Real.rpow 0.1 2 * Real.exp (-0.1 * 3)) :=
  ⟨by norm_num, c8_curve_floor 0 1 2 3 (by norm_num)⟩

/-- A one-row product view used as concrete input for the stale-index
behaviour. -/
def staleRow : AcphRow :=
  { cohortYear := 2020, devYear := 1, productType := "Detached",
    totalClaims := 10, totalHomes := 5, acph := 2 }

/-- Claim C3 failing input: on a one-row view with exclusion index 2, the
mask construction of `fitted_curve` and the Included/Excluded labelling of
`main_plot` both hit an out-of-range positional assignment and raise
(model: `.error "IndexError"`) instead of clamping or ignoring the index. -/
theorem c3_stale_index_raises :
    fitted_curve (fun _ => (none : Option Unit)) [staleRow] [2] = .error "IndexError" ∧
    main_plot (fun _ => (none : Option Unit)) [staleRow] [2] = .error "IndexError" :=
  ⟨rfl, rfl⟩

theorem reducedPattern_length (df : List AcphRow) :
    (reducedPattern df).length
      = ((devYearsOf df).filter (fun d => decide (d ≤ 10))).length := by
  unfold reducedPattern
  have hperm :
      List.Perm
        ((List.insertionSort pointLE
            ((devYearsOf df).map (fun d => (d, meanACPH df d)))).filter
          (fun p => decide (p.1 ≤ 10)))
        (((devYearsOf df).map (fun d => (d, meanACPH df d))).filter
          (fun p => decide (p.1 ≤ 10))) :=
    (List.perm_insertionSort pointLE _).filter _
  rw [hperm.length_eq, List.filter_map, List.length_map]
  rfl

theorem mem_reducedPattern (df : List AcphRow) (d : Int) (v : Rat) :
    (d, v) ∈ reducedPattern df ↔
      d ∈ df.map (fun r => r.devYear) ∧ d ≤ 10 ∧ v = meanACPH df d := by
  unfold reducedPattern
  rw [List.mem_filter, (List.perm_insertionSort pointLE _).mem_iff, List.mem_map]
  constructor
  · rintro ⟨⟨d', hd', hfd⟩, h10⟩
    rw [Prod.mk.injEq] at hfd
    obtain ⟨rfl, hv⟩ := hfd
    refine ⟨?_, by simpa using h10, hv.symm⟩
    exact (List.mem_dedup.mp hd')
  · rintro ⟨hd, h10, hv⟩
    exact ⟨⟨d, List.mem_dedup.mpr hd, by rw [hv]⟩, by simpa using h10⟩

/-- Claim C5: whenever the clean subset has fewer than 3 distinct
development years after the `DevYear ≤ 10` filter, the least-squares
routine is never invoked (the result is `none` for every possible solver
function). -/
theorem c5_insufficient_points_no_fit {α : Type} (fit : List (Int × Rat) → Option α)
    (df : List AcphRow) (sel : List Nat) (clean : List AcphRow)
    (hclean : cleanSubset df sel = some clean)
    (hfew : ((devYearsOf clean).filter (fun d => decide (d ≤ 10))).length < 3) :
    fitted_curve fit df sel = .ok none := by
  unfold fitted_curve
  by_cases hdf : df = []
  · simp [hdf]
  · rw [if_neg hdf, hclean]
    have h3 : (reducedPattern clean).length < 3 := by
      rw [reducedPattern_length]
      exact hfew
    simp [h3]

/-- Two rows with only two distinct development years, the concrete input
of the C5 witness. -/
def fewRow1 : AcphRow :=
  { cohortYear := 2020, devYear := 1, productType := "Detached",
    totalClaims := 10, totalHomes := 5, acph := 2 }

def fewRow2 : AcphRow :=
  { cohortYear := 2020, devYear := 2, productType := "Detached",
    totalClaims := 20, totalHomes := 5, acph := 4 }

/-- Witness for C5: two pattern points only, so even a solver that would
return parameters is never consulted. -/
theorem c5_insufficient_points_no_fit_witness :
    cleanSubset [fewRow1, fewRow2] [] = some [fewRow1, fewRow2] ∧
    ((devYearsOf [fewRow1, fewRow2]).filter (fun d => decide (d ≤ 10))).length < 3 ∧
    fitted_curve (fun _ => some (0 : Nat)) [fewRow1, fewRow2] [] = .ok none :=
  ⟨by decide, by decide,
    c5_insufficient_points_no_fit (fun _ => some (0 : Nat)) [fewRow1, fewRow2] []
      [fewRow1, fewRow2] (by decide) (by decide)⟩

/-- Claim C7: the Pattern Reducer's output is sorted by ascending
development year, and contains exactly one point per distinct `DevYear` of
the clean subset that is at most 10 (negative values included), carrying
the mean ACPH of that development year. -/
theorem c7_pattern_reducer (df : List AcphRow) :
    List.Sorted pointLE (reducedPattern df) ∧
    (∀ (d : Int) (v : Rat),
      (d, v) ∈ reducedPattern df ↔
        d ∈ df.map (fun r => r.devYear) ∧ d ≤ 10 ∧ v = meanACPH df d) := by
  constructor
  · have hs : List.Sorted pointLE
        (List.insertionSort pointLE ((devYearsOf df).map (fun d => (d, meanACPH df d)))) :=
      List.sorted_insertionSort pointLE _
    exact List.Pairwise.sublist (List.filter_sublist _) hs
  · exact mem_reducedPattern df

theorem applyMask_cons {α : Type} (x : α) (l : List α) (b : Bool) (mask : List Bool) :
    applyMask (x :: l) (b :: mask) = if b then x :: applyMask l mask else applyMask l mask := by
  cases b <;> rfl

theorem mem_applyMask_range {α : Type} (l : List α) (p : Nat → Bool) (a : α) :
    a ∈ applyMask l ((List.range l.length).map p) ↔
      ∃ i, p i = true ∧ l[i]? = some a := by
  induction l generalizing p with
  | nil => simp [applyMask]
  | cons x l ih =>
    rw [List.length_cons, List.range_succ_eq_map, List.map_cons, List.map_map, applyMask_cons]
    by_cases hp : p 0 = true
    · rw [if_pos hp]
      simp only [List.mem_cons]
      rw [ih (p ∘ Nat.succ)]
      constructor
      · rintro (rfl | ⟨i, hpi, hgi⟩)
        · exact ⟨0, hp, by simp⟩
        · exact ⟨i + 1, hpi, by simpa using hgi⟩
      · rintro ⟨i, hpi, hgi⟩
        cases i with
        | zero =>
          left
          simp only [List.getElem?_cons_zero, Option.some.injEq] at hgi
          exact hgi.symm
        | succ i =>
          right
          exact ⟨i, hpi, by simpa using hgi⟩
    · rw [if_neg hp]
      rw [ih (p ∘ Nat.succ)]
      constructor
      · rintro ⟨i, hpi, hgi⟩
        exact ⟨i + 1, hpi, by simpa using hgi⟩
      · rintro ⟨i, hpi, hgi⟩
        cases i with
        | zero => exact absurd hpi hp
        | succ i => exact ⟨i, hpi, by simpa using hgi⟩

theorem isinMask_nil (n : Nat) : isinMask n [] = List.replicate n false := by
  simp [isinMask, List.map_const']

theorem applyMask_replicate_false {α : Type} (l : List α) (n : Nat) :
    applyMask l (List.replicate n false) = [] := by
  induction l generalizing n with
  | nil => rfl
  | cons a l ih =>
    cases n with
    | zero => rfl
    | succ n =>
      rw [List.replicate_succ, applyMask_cons, if_neg (by simp)]
      exact ih n

theorem isinMask_filter_lt (n : Nat) (sel : List Nat) :
    isinMask n (sel.filter (fun i => decide (i < n))) = isinMask n sel := by
  unfold isinMask
  refine List.map_congr_left ?_
  intro i hi
  have hin : i < n := List.mem_range.mp hi
  simp [decide_eq_decide, List.mem_filter, hin]

theorem excluded_points_eq_pairs (df : List AcphRow) (sel : List Nat) :
    excluded_points df sel
      = (applyMask df (isinMask df.length sel)).map (fun r => (r.cohortYear, r.devYear)) := by
  unfold excluded_points
  by_cases h : sel = []
  · subst h
    rw [if_pos rfl, isinMask_nil, applyMask_replicate_false]
    rfl
  · rw [if_neg h]

/-- Claim C10: the save path persists exactly the `(CohortYear, DevYear)`
pairs of positions that are both selected and within the current view's
row count; out-of-range selected positions are silently dropped by the
membership mask, and every persisted pair comes from a row actually
present in the view. -/
theorem c10_save_ignores_out_of_range (df : List AcphRow) (sel : List Nat) :
    excluded_points df sel
      = excluded_points df (sel.filter (fun i => decide (i < df.length))) ∧
    (∀ q : Int × Int,
      q ∈ excluded_points df sel ↔
        ∃ i, i ∈ sel ∧ ∃ r : AcphRow, df[i]? = some r ∧ q = (r.cohortYear, r.devYear)) := by
  constructor
  · rw [excluded_points_eq_pairs df sel, excluded_points_eq_pairs df _, isinMask_filter_lt]
  · intro q
    rw [excluded_points_eq_pairs, List.mem_map]
    constructor
    · rintro ⟨r, hr, rfl⟩
      unfold isinMask at hr
      rw [mem_applyMask_range] at hr
      obtain ⟨i, hpi, hgi⟩ := hr
      exact ⟨i, by simpa using hpi, r, hgi, rfl⟩
    · rintro ⟨i, hisel, r, hget, rfl⟩
      refine ⟨r, ?_, rfl⟩
      unfold isinMask
      rw [mem_applyMask_range]
      exact ⟨i, by simpa using hisel, hget⟩

/-- Claim C1: every row of the aggregated ACPH table carries the bucket's
total claims, the cohort's total homes, and their quotient as ACPH, and
the table is sorted by (ProductType, CohortYear, DevYear). -/
theorem c1_acph_table_correct (ps : List Policy) (cs : List ClaimTx) :
    List.Sorted rowLE (acphTable ps cs) ∧
    (∀ r : AcphRow, r ∈ acphTable ps cs →
      r.totalClaims = totalClaimsOf ps cs ⟨r.cohortYear, r.devYear, r.productType⟩ ∧
      r.totalHomes = totalHomesOf ps r.cohortYear ∧
      r.acph = totalClaimsOf ps cs ⟨r.cohortYear, r.devYear, r.productType⟩
        / totalHomesOf ps r.cohortYear) := by
  constructor
  · exact List.sorted_insertionSort rowLE _
  · intro r hr
    unfold acphTable at hr
    rw [(List.perm_insertionSort rowLE _).mem_iff, List.mem_map] at hr
    obtain ⟨k, _, rfl⟩ := hr
    exact ⟨rfl, rfl, rfl⟩

/-- A policy book whose only cohort has zero homes, with a claim against
it: the concrete input behind the C2 counterexample. -/
def zhPolicies : List Policy :=
  [{ policyID := 1, cohortYear := 2020, productType := "Flat", numHomes := 0 }]

def zhClaims : List ClaimTx :=
  [{ policyID := 1, reportYear := 2021, paymentAmount := 5 }]

theorem zh_acphTable :
    acphTable zhPolicies zhClaims
      = [acphRowOf zhPolicies zhClaims ⟨2020, 1, "Flat"⟩] := rfl

theorem zh_totalHomes : totalHomesOf zhPolicies 2020 = 0 := by
  simp [totalHomesOf, zhPolicies]

/-- Counterexample to claim C2 as stated: the output table does contain a
row for a cohort whose total homes is zero — such cohorts are not excluded
from the exposure join. -/
theorem c2_zero_homes_row_exists :
    ∃ r ∈ acphTable zhPolicies zhClaims,
      totalHomesOf zhPolicies r.cohortYear = 0 ∧ r.totalHomes = 0 := by
  refine ⟨acphRowOf zhPolicies zhClaims ⟨2020, 1, "Flat"⟩, ?_, zh_totalHomes, zh_totalHomes⟩
  rw [zh_acphTable]
  exact List.mem_singleton_self _

/-- Claim C2 amended: the exposure join excludes nothing — every
(CohortYear, DevYear, ProductType) bucket of the claims-policies join
appears in the output, whether or not its cohort's total homes is zero
(the cohort of a joined claim always has a policy, hence an exposure row). -/
theorem c2_zero_homes_cohorts_kept (ps : List Policy) (cs : List ClaimTx) (k : DevKey)
    (hk : k ∈ devKeys ps cs) :
    acphRowOf ps cs k ∈ acphTable ps cs := by
  unfold acphTable
  rw [(List.perm_insertionSort rowLE _).mem_iff, List.mem_map]
  refine ⟨k, ?_, rfl⟩
  rw [List.mem_filter]
  refine ⟨hk, ?_⟩
  have hmem : k ∈ (joinedRows ps cs).map devKeyOf := List.mem_dedup.mp hk
  rw [List.mem_map] at hmem
  obtain ⟨cp, hcp, rfl⟩ := hmem
  have hp : cp.2 ∈ ps := by
    unfold joinedRows at hcp
    rw [List.mem_flatMap] at hcp
    obtain ⟨c, _, hmem2⟩ := hcp
    rw [List.mem_map] at hmem2
    obtain ⟨p, hpf, rfl⟩ := hmem2
    exact List.mem_of_mem_filter hpf
  have hck : (devKeyOf cp).cohortYear ∈ exposureKeys ps := by
    unfold exposureKeys
    rw [List.mem_dedup, List.mem_map]
    exact ⟨cp.2, hp, rfl⟩
  simpa using hck

/-- Witness for the amended C2 at the zero-homes input: the bucket of the
only claim is present, and its row reaches the output table. -/
theorem c2_zero_homes_cohorts_kept_witness :
    (⟨2020, 1, "Flat"⟩ : DevKey) ∈ devKeys zhPolicies zhClaims ∧
    acphRowOf zhPolicies zhClaims ⟨2020, 1, "Flat"⟩ ∈ acphTable zhPolicies zhClaims :=
  ⟨by decide,
    c2_zero_homes_cohorts_kept zhPolicies zhClaims ⟨2020, 1, "Flat"⟩ (by decide)⟩
